import Mathlib

/-!
Verification of the break-reminder timer in src/rusty.rs.

The shared schedule (the Timer struct of atomics), the interval-edit
handler, and one iteration of the clock-thread loop are embedded as pure
Lean functions.  Machine integers (u64 fields, usize counter) are
modelled as Nat with explicit wraparound where the source performs
unchecked arithmetic.  Wall-clock time is abstracted: one clock-loop
iteration takes the observed elapsed-seconds-since-thread-start value as
an argument, exactly the quantity the source reads from
start_time.elapsed().as_secs().
-/

namespace Rusty

/-- Modulus of the u64 machine integers used by the schedule fields. -/
def U64_MOD : Nat := 2 ^ 64

/-- Wrapping u64 addition, the semantics of the unchecked additions in
the source (release profile). -/
def u64_add (a b : Nat) : Nat := (a + b) % U64_MOD

/-- Wrapping u64 subtraction, the semantics of the unchecked subtraction
current_interval - interval_change in the source (release profile).
Assumes both operands are representable, that is, below U64_MOD. -/
def u64_sub (a b : Nat) : Nat := (a + U64_MOD - b) % U64_MOD

/-- The subtraction a - b would leave the u64 range (the wrap or, in a
debug build, panic condition). -/
def subUnderflows (a b : Nat) : Prop := a < b

instance (a b : Nat) : Decidable (subUnderflows a b) :=
  inferInstanceAs (Decidable (a < b))

/-- TimerConfig from src/rusty.rs (all durations in seconds). -/
structure TimerConfig where
  default_break_interval : Nat
  min_break_interval : Nat
  interval_change : Nat
  max_reminders : Nat
  reminder_interval : Nat
  deriving DecidableEq, Repr

/-- impl Default for TimerConfig. -/
def TimerConfig.default : TimerConfig where
  default_break_interval := 50 * 60
  min_break_interval := 5 * 60
  interval_change := 5 * 60
  max_reminders := 8
  reminder_interval := 5 * 60

/-- Two-digit zero-padded decimal rendering, the embedding of the Rust
format specifier that pads with zeros to width two (numbers of three or
more digits are printed in full). -/
def pad2 (n : Nat) : List Char :=
  if n < 100 then [Nat.digitChar (n / 10), Nat.digitChar (n % 10)]
  else Nat.toDigits 10 n

/-- format_time from src/rusty.rs: seconds rendered as mm:ss with each
component zero-padded to two digits. -/
def format_time (seconds : Nat) : String :=
  String.mk (pad2 (seconds / 60) ++ ':' :: pad2 (seconds % 60))

/-- The Timer struct of src/rusty.rs: the five shared atomic fields.
The immutable config travels with the state, as in the source struct. -/
structure Timer where
  break_interval : Nat
  next_break_time : Nat
  reminder_count : Nat
  should_exit : Bool
  is_break_time : Bool
  config : TimerConfig
  deriving DecidableEq, Repr

/-- Timer::new. -/
def Timer.new (config : TimerConfig) : Timer where
  break_interval := config.default_break_interval
  next_break_time := config.default_break_interval
  reminder_count := 0
  should_exit := false
  is_break_time := false
  config := config

/-- The key events the input loop dispatches on. -/
inductive Key where
  | plus
  | minus
  | help
  | quit
  | other
  deriving DecidableEq, Repr

/-- Timer::handle_interval_change.  Returns the updated schedule and the
acknowledgement line written to the terminal (none when the edit is
suppressed because a break is active).  As in the source, any key other
than plus is treated as a decrease. -/
def Timer.handle_interval_change (t : Timer) (key : Key) : Timer × Option String :=
  if !t.is_break_time then
    let current_interval := t.break_interval
    let na : Nat × String :=
      if key = Key.plus then
        (u64_add current_interval t.config.interval_change, "increased")
      else
        let new_interval :=
          max (u64_sub current_interval t.config.interval_change)
            t.config.min_break_interval
        (new_interval,
          if new_interval < current_interval then "decreased"
          else "already at minimum")
    let new_interval := na.1
    let action := na.2
    ({ t with break_interval := new_interval, next_break_time := new_interval },
      some ("Break interval " ++ action ++ " to " ++ format_time new_interval))
  else
    (t, none)

/-- Result of one iteration of the clock-thread loop: the schedule after
the iteration, whether the loop terminated (the while guard failed or
the body hit break), whether a break reminder was emitted, and the
status line printed, when any. -/
structure ClockStep where
  st : Timer
  stopped : Bool
  reminded : Bool
  display : Option String
  deriving DecidableEq, Repr

/-- One iteration of the loop body of Timer::start_timer_thread,
including the while guard.  elapsed is the observed value of
start_time.elapsed().as_secs(): seconds since the clock thread started. -/
def clock_tick (elapsed : Nat) (t : Timer) : ClockStep :=
  if t.should_exit then ⟨t, true, false, none⟩
  else
    let next_break := t.next_break_time
    let reminders := t.reminder_count
    if next_break ≤ elapsed then
      let t1 := { t with is_break_time := true }
      if reminders < t.config.max_reminders then
        ⟨{ t1 with
            reminder_count := reminders + 1,
            next_break_time := u64_add next_break t.config.reminder_interval },
          false, true, some "Time to take a break!"⟩
      else
        ⟨t1, true, false, none⟩
    else if !t.is_break_time then
      ⟨t, false, false,
        some ("Time until next break: " ++ format_time (next_break - elapsed))⟩
    else
      ⟨t, false, false, none⟩

/-- Run the clock loop through a list of successive observed elapsed
values, keeping only the schedule. -/
def clock_run (es : List Nat) (t : Timer) : Timer :=
  es.foldl (fun s e => (clock_tick e s).st) t

/-- One dispatch of the input loop in main: plus and minus go to
Timer::handle_interval_change, the question mark prints help, q stores
should_exit and leaves the loop, anything else prints a hint. -/
def key_step (t : Timer) (k : Key) : Timer × Option String :=
  match k with
  | Key.plus => t.handle_interval_change Key.plus
  | Key.minus => t.handle_interval_change Key.minus
  | Key.help => (t, some "Commands: + - q")
  | Key.quit => ({ t with should_exit := true }, none)
  | Key.other => (t, some "Unknown command (press ? for help)")

/-- An interleaving event: either the clock thread runs one iteration at
a given elapsed time, or the input thread dispatches one key. -/
inductive Event where
  | tick (elapsed : Nat)
  | key (k : Key)
  deriving DecidableEq, Repr

/-- Effect of one event of either thread on the shared schedule. -/
def program_step (t : Timer) (e : Event) : Timer :=
  match e with
  | Event.tick elapsed => (clock_tick elapsed t).st
  | Event.key k => (key_step t k).1

/-- Digit value of a character, for reading back formatted times. -/
def digitVal (c : Char) : Option Nat :=
  if c.isDigit then some (c.toNat - 48) else none

/-- Read back a string of the exact shape mm:ss (two digits, colon, two
digits) into its minute and second values. -/
def parse_mmss (s : String) : Option (Nat × Nat) :=
  match s.toList with
  | [a, b, c, d, e] =>
    if c = ':' then
      match digitVal a, digitVal b, digitVal d, digitVal e with
      | some x1, some x2, some y1, some y2 =>
        some (10 * x1 + x2, 10 * y1 + y2)
      | _, _, _, _ => none
    else none
  | _ => none

/-! Arithmetic helper lemmas about the u64 model. -/

theorem u64_add_eq (a b : Nat) (h : a + b < U64_MOD) : u64_add a b = a + b :=
  Nat.mod_eq_of_lt h

theorem u64_sub_eq (a b : Nat) (ha : a < U64_MOD) (h : b ≤ a) :
    u64_sub a b = a - b := by
  unfold u64_sub
  have h1 : a + U64_MOD - b = a - b + U64_MOD := by omega
  rw [h1, Nat.add_mod_right]
  exact Nat.mod_eq_of_lt (by omega)

theorem digitVal_digitChar : ∀ d, d < 10 → digitVal (Nat.digitChar d) = some d := by
  decide

theorem parse_mmss_mk (x1 x2 y1 y2 : Nat)
    (h1 : x1 < 10) (h2 : x2 < 10) (h3 : y1 < 10) (h4 : y2 < 10) :
    parse_mmss (String.mk [Nat.digitChar x1, Nat.digitChar x2, ':',
      Nat.digitChar y1, Nat.digitChar y2]) = some (10 * x1 + x2, 10 * y1 + y2) := by
  have e1 := digitVal_digitChar x1 h1
  have e2 := digitVal_digitChar x2 h2
  have e3 := digitVal_digitChar y1 h3
  have e4 := digitVal_digitChar y2 h4
  simp [parse_mmss, String.toList, e1, e2, e3, e4]

/-! Claim theorems. -/

/-- Claim C3: while break_active is true, handling a plus or minus key
leaves the whole schedule unchanged and emits no acknowledgement: the
edit is a no-op on interval and next_deadline. -/
theorem claim3_break_edits_noop (t : Timer) (k : Key)
    (h : t.is_break_time = true) :
    t.handle_interval_change k = (t, none) := by
  simp [Timer.handle_interval_change, h]

/-- A concrete schedule in which a break is active, for witnesses. -/
def break_active_state : Timer where
  break_interval := 3000
  next_break_time := 3000
  reminder_count := 1
  should_exit := false
  is_break_time := true
  config := TimerConfig.default

/-- Witness for claim C3 at a concrete break-active state. -/
theorem claim3_witness :
    break_active_state.handle_interval_change Key.plus = (break_active_state, none) :=
  claim3_break_edits_noop break_active_state Key.plus rfl

/-- Counterexample to claim C2 as stated.  The edit moment is abstracted
by the elapsed clock value at which it happens; take an increase edit
performed at elapsed 600 seconds, with break inactive.  Measured from
the moment of the edit, the new deadline would be 600 + 3300 = 3900
elapsed seconds.  The code instead stores 3300 into next_break_time, and
the clock loop, which compares next_break_time against elapsed time
since the thread started, already fires the break reminder at elapsed
3300 < 3900. -/
theorem claim2_counterexample :
    (Timer.new TimerConfig.default).is_break_time = false ∧
    ((Timer.new TimerConfig.default).handle_interval_change Key.plus).1.break_interval
      = 3300 ∧
    ((Timer.new TimerConfig.default).handle_interval_change Key.plus).1.next_break_time
      = 3300 ∧
    ((Timer.new TimerConfig.default).handle_interval_change Key.plus).1.next_break_time
      ≠ 600 + 3300 ∧
    (clock_tick 3300
        ((Timer.new TimerConfig.default).handle_interval_change Key.plus).1).reminded
      = true ∧
    3300 < 600 + 3300 := by
  decide

/-- Claim C2 amended: after an increase or decrease edit performed while
break_active is false, next_break_time equals the new interval value
itself.  Since the clock loop compares next_break_time against elapsed
seconds since the timer thread started, the deadline is new_interval
measured from the thread start, not from the moment of the edit: an edit
at elapsed e leaves a countdown of new_interval - e seconds. -/
theorem claim2_amended_deadline_rebased_to_start (t : Timer) (k : Key)
    (hb : t.is_break_time = false) :
    (t.handle_interval_change k).1.next_break_time
      = (t.handle_interval_change k).1.break_interval := by
  simp [Timer.handle_interval_change, hb]

/-- Witness for the amended claim C2 at the initial default schedule. -/
theorem claim2_amended_witness :
    ((Timer.new TimerConfig.default).handle_interval_change Key.minus).1.next_break_time
      = ((Timer.new TimerConfig.default).handle_interval_change Key.minus).1.break_interval :=
  claim2_amended_deadline_rebased_to_start (Timer.new TimerConfig.default) Key.minus rfl

/-- The schedule after the clock thread has fired all eight default
reminders: ticks observed at the deadline instants 3000, 3300, ..., 5100
seconds of elapsed time. -/
def exhausted_state : Timer :=
  clock_run [3000, 3300, 3600, 3900, 4200, 4500, 4800, 5100]
    (Timer.new TimerConfig.default)

/-- Counterexample to claim C1 as stated.  Under the default
configuration, after the eight reminders have fired the deadline 5400 is
reached again while reminder_count equals max_reminders; the clock loop
then terminates (the break statement), but should_exit is still false:
the clock process never sets exit_requested, so the program keeps
waiting for user input instead of terminating within one tick. -/
theorem claim1_counterexample :
    exhausted_state.reminder_count = TimerConfig.default.max_reminders ∧
    exhausted_state.next_break_time ≤ 5400 ∧
    (clock_tick 5400 exhausted_state).stopped = true ∧
    (clock_tick 5400 exhausted_state).st.should_exit = false := by
  decide

/-- Claim C1 amended: when the deadline is reached again while
reminder_count equals max_reminders, the clock loop terminates without
emitting a further reminder and without setting exit_requested, which
keeps its previous value false; program exit then still requires the
input process to observe a quit command. -/
theorem claim1_amended_exhaustion_stops_without_exit (t : Timer) (elapsed : Nat)
    (hrun : t.should_exit = false)
    (hcnt : t.reminder_count = t.config.max_reminders)
    (hdl : t.next_break_time ≤ elapsed) :
    (clock_tick elapsed t).stopped = true ∧
    (clock_tick elapsed t).st.should_exit = false ∧
    (clock_tick elapsed t).reminded = false := by
  simp [clock_tick, hrun, hdl, hcnt]

/-- A concrete schedule whose reminder budget is spent, for witnesses. -/
def spent_state : Timer where
  break_interval := 3000
  next_break_time := 5400
  reminder_count := 8
  should_exit := false
  is_break_time := true
  config := TimerConfig.default

/-- Witness for the amended claim C1 at a concrete exhausted schedule. -/
theorem claim1_amended_witness :
    (clock_tick 5400 spent_state).stopped = true ∧
    (clock_tick 5400 spent_state).st.should_exit = false ∧
    (clock_tick 5400 spent_state).reminded = false :=
  claim1_amended_exhaustion_stops_without_exit spent_state 5400 rfl rfl (by decide)

/-- A schedule at the top of the u64 range, with the default
configuration and no break active; reachable in the unchecked
release-build arithmetic model by repeated increase edits. -/
def wrap_state : Timer where
  break_interval := 18446744073709551468
  next_break_time := 18446744073709551468
  reminder_count := 0
  should_exit := false
  is_break_time := false
  config := TimerConfig.default

/-- Counterexample to claim C4 as stated.  The unchecked u64 addition of
the increase edit wraps: at break_interval = 2 ^ 64 - 148, which
satisfies the invariant interval >= min_interval for the default
configuration, one increase edit stores (2 ^ 64 - 148 + 300) mod 2 ^ 64
= 152 < 300 = min_break_interval, so the invariant is not preserved by
every increase edit. -/
theorem claim4_counterexample :
    wrap_state.config = TimerConfig.default ∧
    wrap_state.is_break_time = false ∧
    wrap_state.config.min_break_interval ≤ wrap_state.break_interval ∧
    (wrap_state.handle_interval_change Key.plus).1.break_interval = 152 ∧
    (wrap_state.handle_interval_change Key.plus).1.break_interval
      < wrap_state.config.min_break_interval := by
  decide

/-- Claim C4 amended: the invariant interval >= min_interval holds in
the initial schedule built by Timer::new whenever the configuration has
default_break_interval >= min_break_interval; it is preserved
unconditionally by every decrease edit, and by an increase edit exactly
under the proviso that the u64 addition interval + interval_change does
not wrap (an increase within interval_change of 2 ^ 64 wraps below
min_interval). -/
theorem claim4_amended_interval_min_invariant (cfg : TimerConfig) (t : Timer) (k : Key)
    (hcfg : cfg.min_break_interval ≤ cfg.default_break_interval)
    (hinv : t.config.min_break_interval ≤ t.break_interval) :
    (Timer.new cfg).break_interval = cfg.default_break_interval ∧
    cfg.min_break_interval ≤ (Timer.new cfg).break_interval ∧
    (k ≠ Key.plus →
      t.config.min_break_interval ≤ (t.handle_interval_change k).1.break_interval) ∧
    (t.break_interval + t.config.interval_change < U64_MOD →
      t.config.min_break_interval ≤ (t.handle_interval_change k).1.break_interval) := by
  refine ⟨rfl, hcfg, ?_, ?_⟩
  · intro hk
    unfold Timer.handle_interval_change
    by_cases hb : t.is_break_time
    · simpa [hb] using hinv
    · simp [hb, hk]
  · intro hof
    unfold Timer.handle_interval_change
    by_cases hb : t.is_break_time
    · simpa [hb] using hinv
    · by_cases hk : k = Key.plus
      · simp [hb, hk, u64_add_eq _ _ hof]
        omega
      · simp [hb, hk]

/-- Witness for the amended claim C4 at the default configuration and
its initial schedule. -/
theorem claim4_amended_witness :
    (Timer.new TimerConfig.default).break_interval
      = TimerConfig.default.default_break_interval ∧
    TimerConfig.default.min_break_interval ≤ (Timer.new TimerConfig.default).break_interval ∧
    (Key.minus ≠ Key.plus →
      (Timer.new TimerConfig.default).config.min_break_interval
        ≤ ((Timer.new TimerConfig.default).handle_interval_change Key.minus).1.break_interval) ∧
    ((Timer.new TimerConfig.default).break_interval
        + (Timer.new TimerConfig.default).config.interval_change < U64_MOD →
      (Timer.new TimerConfig.default).config.min_break_interval
        ≤ ((Timer.new TimerConfig.default).handle_interval_change Key.minus).1.break_interval) :=
  claim4_amended_interval_min_invariant TimerConfig.default (Timer.new TimerConfig.default)
    Key.minus (by decide) (by decide)

/-- Claim C5: with break inactive and interval at least the minimum, one
increase edit followed by one decrease edit restores the original
interval (the decrease cannot floor below it), provided the increase
stays inside the u64 range. -/
theorem claim5_increase_decrease_roundtrip (t : Timer)
    (hb : t.is_break_time = false)
    (hmin : t.config.min_break_interval ≤ t.break_interval)
    (hof : t.break_interval + t.config.interval_change < U64_MOD) :
    ((t.handle_interval_change Key.plus).1.handle_interval_change Key.minus).1.break_interval
      = t.break_interval := by
  have hstep1 :
      (t.handle_interval_change Key.plus).1
        = { t with break_interval := t.break_interval + t.config.interval_change,
                   next_break_time := t.break_interval + t.config.interval_change } := by
    simp [Timer.handle_interval_change, hb, u64_add_eq _ _ hof]
  rw [hstep1]
  have hsub :
      u64_sub (t.break_interval + t.config.interval_change) t.config.interval_change
        = t.break_interval := by
    rw [u64_sub_eq _ _ hof (Nat.le_add_left _ _)]
    omega
  simp [Timer.handle_interval_change, hb, hsub]
  omega

/-- Witness for claim C5 at the initial default schedule. -/
theorem claim5_witness :
    (((Timer.new TimerConfig.default).handle_interval_change
          Key.plus).1.handle_interval_change Key.minus).1.break_interval
      = (Timer.new TimerConfig.default).break_interval :=
  claim5_increase_decrease_roundtrip (Timer.new TimerConfig.default)
    rfl (by decide) (by decide)

/-- Claim C6: with break inactive and the interval already at the
configured minimum (for a configuration whose step does not exceed the
minimum, as in the default one), a decrease edit leaves the interval at
the minimum and its acknowledgement line carries the already-at-minimum
wording, not the decreased wording. -/
theorem claim6_decrease_at_minimum (t : Timer)
    (hb : t.is_break_time = false)
    (hcur : t.break_interval = t.config.min_break_interval)
    (hstep : t.config.interval_change ≤ t.config.min_break_interval)
    (hrep : t.config.min_break_interval < U64_MOD) :
    (t.handle_interval_change Key.minus).1.break_interval
      = t.config.min_break_interval ∧
    (t.handle_interval_change Key.minus).2
      = some ("Break interval already at minimum to "
          ++ format_time t.config.min_break_interval) := by
  have hsub : u64_sub t.config.min_break_interval t.config.interval_change
      = t.config.min_break_interval - t.config.interval_change :=
    u64_sub_eq _ _ hrep hstep
  have hkey : max (u64_sub t.config.min_break_interval t.config.interval_change)
      t.config.min_break_interval = t.config.min_break_interval := by
    rw [hsub]
    exact Nat.max_eq_right (Nat.sub_le _ _)
  have hlt : ¬ t.config.min_break_interval < t.config.min_break_interval :=
    lt_irrefl _
  simp [Timer.handle_interval_change, hb, hcur, hkey, hlt]

/-- A concrete schedule sitting at the minimum interval, for
witnesses. -/
def minimum_state : Timer where
  break_interval := 300
  next_break_time := 300
  reminder_count := 0
  should_exit := false
  is_break_time := false
  config := TimerConfig.default

/-- Witness for claim C6 at a concrete minimum-interval schedule. -/
theorem claim6_witness :
    (minimum_state.handle_interval_change Key.minus).1.break_interval
      = minimum_state.config.min_break_interval ∧
    (minimum_state.handle_interval_change Key.minus).2
      = some ("Break interval already at minimum to "
          ++ format_time minimum_state.config.min_break_interval) :=
  claim6_decrease_at_minimum minimum_state rfl rfl (by decide) (by decide)

/-- Claim C10: whenever interval >= min_break_interval and the
configuration has min_break_interval >= interval_change (as the default
one does), the unchecked u64 subtraction interval - interval_change
cannot underflow: it agrees with the exact natural subtraction, and the
decrease edit computes the clamped value max (interval -
interval_change) min_break_interval. -/
theorem claim10_decrease_no_underflow (t : Timer)
    (hmin : t.config.min_break_interval ≤ t.break_interval)
    (hcfg : t.config.interval_change ≤ t.config.min_break_interval)
    (hrep : t.break_interval < U64_MOD) :
    ¬ subUnderflows t.break_interval t.config.interval_change ∧
    u64_sub t.break_interval t.config.interval_change
      = t.break_interval - t.config.interval_change ∧
    (t.is_break_time = false →
      (t.handle_interval_change Key.minus).1.break_interval
        = max (t.break_interval - t.config.interval_change)
            t.config.min_break_interval) := by
  have hle : t.config.interval_change ≤ t.break_interval := le_trans hcfg hmin
  refine ⟨fun hu => absurd hu (not_lt.mpr hle), u64_sub_eq _ _ hrep hle, fun hb => ?_⟩
  simp [Timer.handle_interval_change, hb, u64_sub_eq _ _ hrep hle]

/-- Witness for claim C10 at the initial default schedule. -/
theorem claim10_witness :
    ¬ subUnderflows (Timer.new TimerConfig.default).break_interval
        (Timer.new TimerConfig.default).config.interval_change ∧
    u64_sub (Timer.new TimerConfig.default).break_interval
        (Timer.new TimerConfig.default).config.interval_change
      = (Timer.new TimerConfig.default).break_interval
          - (Timer.new TimerConfig.default).config.interval_change ∧
    ((Timer.new TimerConfig.default).is_break_time = false →
      ((Timer.new TimerConfig.default).handle_interval_change Key.minus).1.break_interval
        = max ((Timer.new TimerConfig.default).break_interval
              - (Timer.new TimerConfig.default).config.interval_change)
            (Timer.new TimerConfig.default).config.min_break_interval) :=
  claim10_decrease_no_underflow (Timer.new TimerConfig.default)
    (by decide) (by decide) (by decide)

/-- Claim C8: reminder_count starts at 0 and never exceeds
max_reminders; a clock iteration changes it only by incrementing it from
a value strictly below max_reminders, and every such increment emits a
reminder notification and advances next_break_time by
reminder_interval. -/
theorem claim8_reminder_cap_invariant (cfg : TimerConfig) (t : Timer) (elapsed : Nat)
    (hinv : t.reminder_count ≤ t.config.max_reminders) :
    (Timer.new cfg).reminder_count = 0 ∧
    (clock_tick elapsed t).st.reminder_count ≤ t.config.max_reminders ∧
    ((clock_tick elapsed t).st.reminder_count ≠ t.reminder_count →
      t.reminder_count < t.config.max_reminders ∧
      (clock_tick elapsed t).st.reminder_count = t.reminder_count + 1 ∧
      (clock_tick elapsed t).reminded = true ∧
      (clock_tick elapsed t).st.next_break_time
        = u64_add t.next_break_time t.config.reminder_interval) := by
  refine ⟨rfl, ?_, ?_⟩ <;> unfold clock_tick
  · by_cases hx : t.should_exit
    · simpa [hx] using hinv
    · by_cases hd : t.next_break_time ≤ elapsed
      · by_cases hc : t.reminder_count < t.config.max_reminders
        · simp [hx, hd, hc]
          omega
        · simpa [hx, hd, hc] using hinv
      · by_cases hbk : t.is_break_time <;> simpa [hx, hd, hbk] using hinv
  · by_cases hx : t.should_exit
    · simp [hx]
    · by_cases hd : t.next_break_time ≤ elapsed
      · by_cases hc : t.reminder_count < t.config.max_reminders <;>
          simp [hx, hd, hc]
      · by_cases hbk : t.is_break_time <;> simp [hx, hd, hbk]

/-- Witness for claim C8 at the initial default schedule observed at its
first deadline. -/
theorem claim8_witness :
    (Timer.new TimerConfig.default).reminder_count = 0 ∧
    (clock_tick 3000 (Timer.new TimerConfig.default)).st.reminder_count
      ≤ (Timer.new TimerConfig.default).config.max_reminders ∧
    ((clock_tick 3000 (Timer.new TimerConfig.default)).st.reminder_count
        ≠ (Timer.new TimerConfig.default).reminder_count →
      (Timer.new TimerConfig.default).reminder_count
        < (Timer.new TimerConfig.default).config.max_reminders ∧
      (clock_tick 3000 (Timer.new TimerConfig.default)).st.reminder_count
        = (Timer.new TimerConfig.default).reminder_count + 1 ∧
      (clock_tick 3000 (Timer.new TimerConfig.default)).reminded = true ∧
      (clock_tick 3000 (Timer.new TimerConfig.default)).st.next_break_time
        = u64_add (Timer.new TimerConfig.default).next_break_time
            (Timer.new TimerConfig.default).config.reminder_interval) :=
  claim8_reminder_cap_invariant TimerConfig.default (Timer.new TimerConfig.default)
    3000 (by decide)

/-- Claim C9: no step of either thread ever clears is_break_time once it
is true, the reminder count never decreases (in particular it is never
reset to 0), and once a break is active the plus and minus keys leave
both the interval and the deadline unchanged for the rest of the run. -/
theorem claim9_break_latch_permanent (t : Timer) (e : Event) :
    (t.is_break_time = true → (program_step t e).is_break_time = true) ∧
    t.reminder_count ≤ (program_step t e).reminder_count ∧
    (t.is_break_time = true →
      (program_step t (Event.key Key.plus)).break_interval = t.break_interval ∧
      (program_step t (Event.key Key.minus)).break_interval = t.break_interval ∧
      (program_step t (Event.key Key.plus)).next_break_time = t.next_break_time ∧
      (program_step t (Event.key Key.minus)).next_break_time = t.next_break_time) := by
  refine ⟨?_, ?_, fun hbk => ?_⟩
  · intro hbk
    cases e with
    | tick elapsed =>
      unfold program_step clock_tick
      by_cases hx : t.should_exit
      · simpa [hx] using hbk
      · by_cases hd : t.next_break_time ≤ elapsed
        · by_cases hc : t.reminder_count < t.config.max_reminders <;>
            simp [hx, hd, hc]
        · simp [hx, hd, hbk]
    | key k =>
      cases k <;>
        simp [program_step, key_step, Timer.handle_interval_change, hbk]
  · cases e with
    | tick elapsed =>
      unfold program_step clock_tick
      by_cases hx : t.should_exit
      · simp [hx]
      · by_cases hd : t.next_break_time ≤ elapsed
        · by_cases hc : t.reminder_count < t.config.max_reminders <;>
            simp [hx, hd, hc]
        · by_cases hbk : t.is_break_time <;> simp [hx, hd, hbk]
    | key k =>
      unfold program_step key_step
      cases k <;> simp [Timer.handle_interval_change] <;>
        by_cases hbk : t.is_break_time <;> simp [hbk]
  · simp [program_step, key_step, Timer.handle_interval_change, hbk]

/-- Witness for claim C9 at a concrete break-active state under a key
event. -/
theorem claim9_witness :
    (break_active_state.is_break_time = true →
      (program_step break_active_state (Event.key Key.plus)).is_break_time = true) ∧
    break_active_state.reminder_count
      ≤ (program_step break_active_state (Event.key Key.plus)).reminder_count ∧
    (break_active_state.is_break_time = true →
      (program_step break_active_state (Event.key Key.plus)).break_interval
        = break_active_state.break_interval ∧
      (program_step break_active_state (Event.key Key.minus)).break_interval
        = break_active_state.break_interval ∧
      (program_step break_active_state (Event.key Key.plus)).next_break_time
        = break_active_state.next_break_time ∧
      (program_step break_active_state (Event.key Key.minus)).next_break_time
        = break_active_state.next_break_time) :=
  claim9_break_latch_permanent break_active_state (Event.key Key.plus)

/-- Claim C7: for any seconds below one hour, format_time renders the
zero-padded string mm:ss with mm = seconds / 60 and ss = seconds % 60,
so reading the two two-digit fields back recovers the input; in
particular 65 renders as 01:05 and 3000 as 50:00. -/
theorem claim7_format_time_roundtrip (s : Nat) (h : s < 3600) :
    parse_mmss (format_time s) = some (s / 60, s % 60) ∧
    (s / 60) * 60 + s % 60 = s ∧
    format_time 65 = "01:05" ∧
    format_time 3000 = "50:00" := by
  refine ⟨?_, by omega, by decide, by decide⟩
  have hform : format_time s
      = String.mk [Nat.digitChar (s / 60 / 10), Nat.digitChar (s / 60 % 10), ':',
          Nat.digitChar (s % 60 / 10), Nat.digitChar (s % 60 % 10)] := by
    unfold format_time pad2
    rw [if_pos (show s / 60 < 100 by omega), if_pos (show s % 60 < 100 by omega)]
    rfl
  rw [hform,
    parse_mmss_mk _ _ _ _ (by omega) (by omega) (by omega) (by omega)]
  have h1 : 10 * (s / 60 / 10) + s / 60 % 10 = s / 60 := by omega
  have h2 : 10 * (s % 60 / 10) + s % 60 % 10 = s % 60 := by omega
  rw [h1, h2]

/-- Witness for claim C7 at the documented inputs. -/
theorem claim7_witness :
    parse_mmss (format_time 65) = some (65 / 60, 65 % 60) ∧
    (65 / 60) * 60 + 65 % 60 = 65 ∧
    format_time 65 = "01:05" ∧
    format_time 3000 = "50:00" :=
  claim7_format_time_roundtrip 65 (by decide)

end Rusty
